import Mathlib

/-!
Shallow embedding of the pure logic of `streamlit_app.py` (Daily-Poist):
the keyword classifier `classify_auto`, the title extractor
`extract_media_posts` with its companion `render_media_posts_sentence`,
the renderers `render_A` and `render_B_sections`, and the rewrite-delegate
wrappers `rewrite_A_with_openai` / `rewrite_B_with_openai` with the OpenAI
client abstracted as an optional fallible delegate.

Strings are modelled by Lean `String`; Python `str.strip` is modelled by
trimming the four ASCII whitespace characters (space, tab, newline,
carriage return), and `str.splitlines` by splitting on the newline
character — the exotic Unicode whitespace / line-separator cases do not
occur in any statement below.  Every regex in the source is an alternation
of literal phrases, so a regex search is modelled as "some phrase of the
list is a substring of the buffer".
-/

/-- Whitespace test used to model Python `str.strip`. -/
def isWS (c : Char) : Bool :=
  c == ' ' || c == '\t' || c == '\n' || c == '\r'

/-- Drop leading whitespace characters. -/
def dropWS : List Char → List Char
  | [] => []
  | c :: rest => if isWS c then dropWS rest else c :: rest

/-- Model of Python `str.strip` on the character list: drop leading and
trailing whitespace. -/
def trimChars (cs : List Char) : List Char :=
  (dropWS ((dropWS cs).reverse)).reverse

/-- Model of Python `str.strip()` on strings. -/
def pyStrip (s : String) : String :=
  String.mk (trimChars s.data)

/-- Source `safe_strip`: `(x or "").strip()` (the argument is always a
string here, so the `or ""` is the identity). -/
def safe_strip (x : String) : String := pyStrip x

/-- Does the pattern occur at the head of the text? -/
def leadMatch : List Char → List Char → Bool
  | [], _ => true
  | _ :: _, [] => false
  | a :: as, b :: bs => a == b && leadMatch as bs

/-- Does the pattern occur anywhere in the text (contiguously)? -/
def hasSub (kw : List Char) : List Char → Bool
  | [] => leadMatch kw []
  | c :: rest => leadMatch kw (c :: rest) || hasSub kw rest

/-- Substring test on strings. -/
def strHasSub (s kw : String) : Bool := hasSub kw.data s.data

/-- Model of `re.search(k1|k2|...|kn, s)` for an alternation of literal
phrases: some phrase occurs in `s`. -/
def containsAny (s : String) (kws : List String) : Bool :=
  kws.any (fun k => strHasSub s k)

/-- The signal dictionary built by `classify_auto` (keys `ai_like`,
`sensitive`, `big_move`). -/
structure Signals where
  ai_like : Bool
  sensitive : Bool
  big_move : Bool
deriving DecidableEq, Repr

/-- Literal alternation of the `ai_like` signal regex in `classify_auto`. -/
def ai_keywords : List String :=
  ["ai", "自动生成", "模板化", "同质化", "一键生成"]

/-- Literal alternation of the `sensitive` signal regex in `classify_auto`. -/
def sensitive_keywords : List String :=
  ["问询", "立案", "调查", "警示", "处罚", "诉讼", "仲裁", "造假", "退市", "爆雷", "财务造假", "监管"]

/-- Literal alternation of the `big_move` signal regex in `classify_auto`. -/
def big_move_keywords : List String :=
  ["涨停", "跌停", "地天", "天地", "暴跌", "暴涨", "闪崩", "异动"]

/-- Literal alternation of the escalate-tier regex in `classify_auto`. -/
def escalate_keywords : List String :=
  ["立案", "调查", "处罚", "退市", "财务造假", "刑事", "重大风险", "爆雷"]

/-- Literal alternation of the extra sensitive-tier regex in `classify_auto`. -/
def sensitive_tier_keywords : List String :=
  ["问询", "警示", "监管"]

/-- Literal alternation of the extra noise-tier regex in `classify_auto`. -/
def noise_keywords : List String :=
  ["争议", "撕", "爆", "热搜", "刷屏", "集中发酵", "谣言"]

/-- Source `classify_auto(media_text, platform_text)`: all regex searches
run on the raw concatenation `media_text + platform_text` (the source also
computes a lowercased buffer `t = (media_text + "\n" + platform_text).lower()`
which it never uses, so matching is case-sensitive and separator-free). -/
def classify_auto (media_text platform_text : String) : String × Signals :=
  let buf := media_text ++ platform_text
  let signals : Signals :=
    { ai_like := containsAny buf ai_keywords
      sensitive := containsAny buf sensitive_keywords
      big_move := containsAny buf big_move_keywords }
  if containsAny buf escalate_keywords then ("escalate", signals)
  else if signals.sensitive || containsAny buf sensitive_tier_keywords then
    ("sensitive", signals)
  else if signals.big_move || containsAny buf noise_keywords then
    ("noise", signals)
  else ("stable", signals)

/-- Model of Python `str.splitlines` restricted to the newline separator
(a possible trailing empty line is immaterial: blank lines are filtered
out by the caller). -/
def splitLinesCh : List Char → List (List Char)
  | [] => [[]]
  | c :: rest =>
    if c = '\n' then [] :: splitLinesCh rest
    else
      match splitLinesCh rest with
      | [] => [[c]]
      | l :: ls => (c :: l) :: ls

/-- After the forced first content character of `《(.+?)》`, the lazily
matched remainder runs up to the first closing `》`. -/
def upToClose : List Char → Option (List Char)
  | [] => none
  | c :: rest =>
    if c = '》' then some []
    else
      match upToClose rest with
      | some pre => some (c :: pre)
      | none => none

/-- Content of a match of `《(.+?)》` starting right after a `《`: at least
one character (`.+?` is lazy but non-empty), then up to the first `》`. -/
def grabTitle : List Char → Option (List Char)
  | [] => none
  | c :: rest =>
    match upToClose rest with
    | some pre => some (c :: pre)
    | none => none

/-- Model of `re.search(r"《(.+?)》", line).group(1)`: the leftmost match
wins, and at a given `《` the lazy group is the shortest closable content. -/
def firstTitle : List Char → Option (List Char)
  | [] => none
  | c :: rest =>
    if c = '《' then
      match grabTitle rest with
      | some t => some t
      | none => firstTitle rest
    else firstTitle rest

/-- Source `extract_media_posts(text)`: early return on blank text, then
one extracted title per non-blank stripped line whose line matches
`《(.+?)》`.  No deduplication is performed. -/
def extract_media_posts (text : String) : List String :=
  if trimChars text.data = [] then []
  else
    (((splitLinesCh text.data).map trimChars).filter (fun l => !l.isEmpty)).filterMap
      (fun ln => (firstTitle ln).map String.mk)

/-- Model of Python `sep.join(items)`. -/
def joinSep (sep : String) : List String → String
  | [] => ""
  | [s] => s
  | s :: t :: rest => s ++ sep ++ joinSep sep (t :: rest)

/-- Source `render_media_posts_sentence(items)`: empty string on the empty
list, a single-title sentence when `len(items) == 1`, otherwise an
enumeration of the first three titles (`tops = items[:3]`). -/
def render_media_posts_sentence (items : List String) : String :=
  match items with
  | [] => ""
  | x :: rest =>
    if (x :: rest).length = 1 then
      "财经媒体端出现单篇关注，标题为《" ++ x ++ "》。"
    else
      "财经媒体端出现多篇关注，代表性标题包括：" ++
        joinSep "、" (((x :: rest).take 3).map (fun t => "《" ++ t ++ "》")) ++ "。"

/-- The lead-in clause shared by `render_A` and `render_B_sections`:
`name = company if company else "公司"`, `w = safe_strip(window)`. -/
def lead_head (company window : String) : String :=
  let name := if company = "" then "公司" else company
  let w := safe_strip window
  if w = "" then "监测期内，" ++ name ++ "相关舆情"
  else "监测期内（" ++ w ++ "），" ++ name ++ "相关舆情"

/-- The per-mode tail of `render_A` (each branch of the source returns
`head` followed by one of these fixed strings; the final branch is the
fall-through escalate text). -/
def A_tail (mode : String) : String :=
  if mode = "stable" then
    "热度整体处于低位运行区间，增量信息有限，传播以常规行情信息及个人观点为主，整体情绪平稳，暂未见明显升级触发因素。"
  else if mode = "noise" then
    "关注度有所抬升，新增信息以存量事项转引与互动讨论扩散为主，观点分化、噪音偏多，尚未见权威新增事实推动舆情结构性变化。"
  else if mode = "sensitive" then
    "热度有所抬升，部分议题集中度提高，存在误读与联想扩散空间，整体处于偏敏感但可控区间，需关注后续权威信息与传播走向。"
  else
    "出现阶段性升温并伴随监管相关叙事增强，已具备外溢扩散与预期扰动条件，建议提升响应等级并强化跟踪处置。"

/-- Source `render_A(company, window, mode)`. -/
def render_A (company window mode : String) : String :=
  lead_head company window ++ A_tail mode

/-- Per-mode `overall` text of `render_B_sections`, minus the shared
`head` it starts with (fall-through branch is escalate). -/
def B_overall_tail (mode : String) : String :=
  if mode = "stable" then
    "热度整体处于低位运行区间，增量信息有限。传播内容以常规行情信息、既有公开事项零散转引及个人观点交流为主，暂未见权威渠道新增重大事项披露或集中性负面议题发酵，舆论情绪总体平稳。"
  else if mode = "noise" then
    "关注度有所抬升，但新增信息以互动平台个人观点扩散及对存量公开信息的重复转引为主，权威渠道新增事实供给有限。整体讨论呈现话题分散、观点堆叠特征，信息有效性相对有限。"
  else if mode = "sensitive" then
    "热度有所抬升，部分议题讨论集中度提高。新增内容以公开信息再解读与情绪化推断为主，暂未见权威新增事实披露引发的结构性变化，整体处于偏敏感但可控区间。"
  else
    "出现阶段性升温，媒体端观点型/追踪型内容增多，且与监管要素相关讨论占比上升。当前已具备外溢扩散与预期扰动触发条件，建议按升级情形处置。"

/-- Per-mode `base_media` text of `render_B_sections`. -/
def B_base_media (mode : String) : String :=
  if mode = "stable" then
    "财经媒体端关注度保持常规水平，相关内容以盘面快讯、行情简评及公开信息摘要为主，报道基调中性客观，未见集中性深度解读或持续追踪。"
  else if mode = "noise" then
    "财经媒体报道总体保持常规节奏，内容以行情快讯、公开信息摘要及既有事项回顾为主，未见集中性深度解读或持续追踪。个别标题存在并置呈现的表达方式，可能放大联想空间，但正文多为事实转述。"
  else if mode = "sensitive" then
    "财经媒体层面，相关报道以监管信息转述、事项回顾及市场解读为主，个别标题存在并置呈现倾向，可能引发联想与误读；目前未见大范围持续追踪或集中深度调查，传播强度总体可控。"
  else
    "财经媒体方面，除行情快讯外，已出现持续追踪、质疑或观点性较强的内容供给，传播端对叙事框架的塑造增强。需重点关注引用来源、表述边界及跨媒体复用放大风险。"

/-- Per-mode `platform` text of `render_B_sections` (before the optional
`ai_like` disclaimer). -/
def B_platform (mode : String) : String :=
  if mode = "stable" then
    "互动平台讨论量处于常态区间，发帖主体以中小投资者为主，讨论集中于股价波动、持仓操作及短期走势的个人判断，观点分化但情绪化程度不高。部分内容存在模板化表达或疑似自动生成痕迹，但传播影响有限。"
  else if mode = "noise" then
    "互动平台讨论较为活跃，内容集中于股价波动归因及事项解读的个人判断，观点分化明显。部分帖文存在情绪化表达与因果牵引式叙事，将不同信息点进行主观拼接；同时，同质化内容较多，疑似借助自动生成工具批量产出，信息增量有限。"
  else if mode = "sensitive" then
    "互动平台讨论活跃度提升，围绕监管动态、公司事项及短期走势的个人解读增多。部分发帖情绪化特征较为明显，存在将不同事件进行因果关联、主观推断后续走向的情况；同时，模板化内容较多，观点同质化明显，信息增量有限。"
  else
    "互动平台方面，相关话题讨论集中度提升，情绪化表达与因果牵引式叙事加速聚合，存在将多信息点主观拼接并扩散的风险。需关注头部帖子与跨平台转载链条。"

/-- Per-mode `advice` text of `render_B_sections`. -/
def B_advice (mode : String) : String :=
  if mode = "stable" then
    "综合研判，当前舆情处于低位平稳状态。建议保持常规监测频率，重点关注权威媒体是否出现观点型集中报道、互动平台是否形成单一叙事并跨平台扩散，以及监管要素相关信息的误读演绎风险；在信息披露合规前提下，统一对外表述口径并强化事实边界。"
  else if mode = "noise" then
    "综合研判，当前舆情以噪音扰动为主，尚不构成事实层面风险升级。建议保持监测强度，重点跟踪高频话题是否形成单一叙事并外溢扩散，以及媒体端是否出现观点型深度解读；在信息披露合规前提下，统一口径并强化时间线与事实边界表述，降低误读空间。"
  else if mode = "sensitive" then
    "综合研判，当前舆情处于偏敏感但可控状态，风险点主要来自情绪叠加与标题并置引发的认知偏差。建议提升监测强度，重点关注：一是权威媒体是否出现观点型集中报道或调查类内容；二是高热话题是否跨平台扩散；三是监管要素相关表述是否出现误读、拼接或二次演绎；在信息披露合规前提下，统一口径并强化事实边界管理。"
  else
    "建议提升响应等级并启动专项跟踪：一是建立关键议题清单与时间线，明确事实边界；二是梳理高频误读点并准备合规口径；三是密切跟踪权威媒体及头部自媒体动向；四是评估是否需要在合规前提下进行必要澄清说明，以降低误读扩散与情绪外溢。"

/-- The fixed AI-content disclaimer appended to the `platform` section
when the `ai_like` signal is present. -/
def ai_hint : String :=
  "另，监测到少量模板化内容，疑似自动生成，整体传播影响有限。"

/-- The four-section dictionary returned by `render_B_sections`. -/
structure Sections where
  overall : String
  media : String
  platform : String
  advice : String
deriving DecidableEq

/-- Source `render_B_sections(company, window, mode, media_text,
platform_text, signals=None)`.  The signals dictionary produced by
`classify_auto` always has three keys, so `if signals and
signals.get("ai_like")` is modelled by matching the `Option` and reading
`ai_like`.  The `platform_text` parameter is unused in the source body. -/
def render_B_sections (company window mode media_text platform_text : String)
    (signals : Option Signals) : Sections :=
  let head := lead_head company window
  let media_hint := render_media_posts_sentence (extract_media_posts media_text)
  let overall := head ++ B_overall_tail mode
  let base_media := B_base_media mode
  let media := if media_hint = "" then base_media else media_hint ++ base_media
  let platform0 := B_platform mode
  let platform :=
    match signals with
    | some s => if s.ai_like then platform0 ++ ai_hint else platform0
    | none => platform0
  { overall := overall, media := media, platform := platform, advice := B_advice mode }

/-- The external OpenAI `responses.create` call, abstracted: given the
user input it either returns the response's `output_text or ""` or fails
with an exception message. -/
abbrev Delegate := String → Except String String

/-- Source `rewrite_A_with_openai(text, style_profile, model_name)`: the
global `CLIENT` becomes the explicit optional delegate.  Returns `text`
when the text is blank, the client is absent, the call raises, or the
stripped response is empty. -/
def rewrite_A_with_openai (client : Option Delegate)
    (text style_profile model_name : String) : String :=
  if pyStrip text = "" ∨ client.isNone = true then text
  else
    match client with
    | none => text
    | some call =>
      match call ("风格档位：" ++ style_profile ++ "\n原文：" ++ text) with
      | Except.error _ => text
      | Except.ok resp =>
        let out := pyStrip resp
        if out = "" then text else out

/-- Source `rewrite_B_with_openai(text, section_type, style_profile,
model_name)`: same fallback structure as the A variant. -/
def rewrite_B_with_openai (client : Option Delegate)
    (text section_type style_profile model_name : String) : String :=
  if pyStrip text = "" ∨ client.isNone = true then text
  else
    match client with
    | none => text
    | some call =>
      match call ("段落类型：" ++ section_type ++ "\n风格档位：" ++ style_profile ++
          "\n原段落：" ++ text) with
      | Except.error _ => text
      | Except.ok resp =>
        let out := pyStrip resp
        if out = "" then text else out

/-- Modelled from the spec: the source has no regulatory keyword list of
its own (its regulatory words are folded into the sensitive-signal list);
the spec describes `regulatory` as "inquiry/investigation/penalty/
regulatory-action keywords present". -/
def spec_regulatory_keywords : List String :=
  ["问询", "监管", "调查", "处罚", "立案"]

/-- Modelled from the spec: the source has no deep-media keyword list and
no `deepMedia` signal at all; the spec describes `deepMedia` as
"investigative/exclusive/tracking-report keywords present". -/
def spec_deep_media_keywords : List String :=
  ["独家", "深度报道", "追踪报道"]

/-! ### Generic string lemmas -/

theorem str_data_append (a b : String) : (a ++ b).data = a.data ++ b.data := by
  cases a; cases b; rfl

theorem str_eq_iff_data (s t : String) : s = t ↔ s.data = t.data := by
  constructor
  · intro h; rw [h]
  · intro h; cases s; cases t; exact congrArg String.mk h

theorem str_length_append (a b : String) : (a ++ b).length = a.length + b.length := by
  cases a with
  | mk l =>
    cases b with
    | mk m => exact List.length_append l m

theorem str_append_ne_right (a b : String) (hb : b ≠ "") : a ++ b ≠ "" := by
  intro h
  apply hb
  rw [str_eq_iff_data] at h ⊢
  rw [str_data_append] at h
  have hnil : ("" : String).data = [] := rfl
  rw [hnil] at h ⊢
  exact (List.append_eq_nil.mp h).2

theorem str_append_ne_left (a b : String) (ha : a ≠ "") : a ++ b ≠ "" := by
  intro h
  apply ha
  rw [str_eq_iff_data] at h ⊢
  rw [str_data_append] at h
  have hnil : ("" : String).data = [] := rfl
  rw [hnil] at h ⊢
  exact (List.append_eq_nil.mp h).1

/-! ### Classifier claims -/

/-- C3: on empty media and platform text, `classify_auto` returns the
stable tier together with the all-false signal set. -/
theorem classify_empty_stable :
    classify_auto "" "" = ("stable", ⟨false, false, false⟩) := by decide

/-- C2: tier priority is strict — any input pair whose concatenation
satisfies both the escalate condition and the sensitive condition of the
source's decision chain classifies as escalate, because the escalate check
is evaluated first. -/
theorem classify_priority_escalate (m p : String)
    (hE : containsAny (m ++ p) escalate_keywords = true)
    (hS : containsAny (m ++ p) sensitive_keywords = true ∨
      containsAny (m ++ p) sensitive_tier_keywords = true) :
    (classify_auto m p).1 = "escalate" := by
  simp [classify_auto, hE]

/-- Witness for `classify_priority_escalate` at the input `("立案", "")`,
which satisfies both the escalate and the sensitive condition. -/
theorem classify_priority_escalate_w :
    containsAny ("立案" ++ "") escalate_keywords = true ∧
    containsAny ("立案" ++ "") sensitive_keywords = true ∧
    (classify_auto "立案" "").1 = "escalate" :=
  ⟨by decide, by decide,
    classify_priority_escalate "立案" "" (by decide) (Or.inl (by decide))⟩

/-- C1 counterexample: an input pair whose concatenation contains both a
regulatory keyword (监管) and a deep-media keyword (独家) classifies as
sensitive, not escalate — the source's escalate rule is a single keyword
list, not the conjunction (regulatory AND deepMedia) OR (newFact AND
regulatory). -/
theorem classify_reg_deepmedia_not_escalate :
    containsAny ("公司获监管问询" ++ "媒体发布独家报道") spec_regulatory_keywords = true ∧
    containsAny ("公司获监管问询" ++ "媒体发布独家报道") spec_deep_media_keywords = true ∧
    (classify_auto "公司获监管问询" "媒体发布独家报道").1 = "sensitive" ∧
    (classify_auto "公司获监管问询" "媒体发布独家报道").1 ≠ "escalate" := by
  decide

/-- C1 amended: `classify_auto` returns the escalate tier exactly when the
raw concatenation of the two inputs contains one of the eight escalate
keywords 立案/调查/处罚/退市/财务造假/刑事/重大风险/爆雷. -/
theorem classify_escalate_iff (m p : String) :
    (classify_auto m p).1 = "escalate" ↔
      containsAny (m ++ p) escalate_keywords = true := by
  by_cases h1 : containsAny (m ++ p) escalate_keywords = true
  · simp [classify_auto, h1]
  · have hs : ¬(("sensitive" : String) = "escalate") := by decide
    have hn : ¬(("noise" : String) = "escalate") := by decide
    have hst : ¬(("stable" : String) = "escalate") := by decide
    simp [classify_auto, h1]
    split
    · exact hs
    · split
      · exact hn
      · exact hst

/-- C4 (code bug): keyword matching in `classify_auto` is case-sensitive.
The source computes a lowercased buffer `t` but never uses it, so the
upper-case "AI" fails to trigger the `ai_like` signal while its
lowercasing "ai" triggers it. -/
theorem classify_case_sensitive :
    (classify_auto "AI" "").2.ai_like = false ∧
    (classify_auto (String.mk ("AI".data.map Char.toLower)) "").2.ai_like = true ∧
    String.mk ("AI".data.map Char.toLower) = "ai" := by decide

/-- C10: keyword matching spans the boundary between the two inputs —
neither "立" nor "案" contains the keyword 立案, yet the sensitive signal
fires and the tier escalates, because the scanned buffer is the direct
concatenation with no separator. -/
theorem classify_boundary_span :
    strHasSub "立" "立案" = false ∧
    strHasSub "案" "立案" = false ∧
    (classify_auto "立" "案").2.sensitive = true ∧
    (classify_auto "立" "案").1 = "escalate" := by decide

/-! ### Extractor lemmas -/

theorem mem_dropWS_of {c : Char} (hc : isWS c = false) :
    ∀ cs : List Char, c ∈ cs → c ∈ dropWS cs := by
  intro cs
  induction cs with
  | nil => intro h; exact absurd h (List.not_mem_nil c)
  | cons a rest ih =>
    intro h
    unfold dropWS
    by_cases ha : isWS a = true
    · rw [if_pos ha]
      rcases List.mem_cons.mp h with h1 | h2
      · rw [h1] at hc; rw [hc] at ha; exact absurd ha (by decide)
      · exact ih h2
    · rw [if_neg ha]; exact h

theorem mem_of_mem_dropWS {c : Char} :
    ∀ cs : List Char, c ∈ dropWS cs → c ∈ cs := by
  intro cs
  induction cs with
  | nil => intro h; exact absurd h (List.not_mem_nil c)
  | cons a rest ih =>
    intro h
    unfold dropWS at h
    by_cases ha : isWS a = true
    · rw [if_pos ha] at h; exact List.mem_cons_of_mem a (ih h)
    · rw [if_neg ha] at h; exact h

theorem mem_trimChars_of {c : Char} (hc : isWS c = false) (cs : List Char)
    (h : c ∈ cs) : c ∈ trimChars cs := by
  unfold trimChars
  rw [List.mem_reverse]
  exact mem_dropWS_of hc _ (List.mem_reverse.mpr (mem_dropWS_of hc cs h))

theorem mem_of_mem_trimChars {c : Char} (cs : List Char)
    (h : c ∈ trimChars cs) : c ∈ cs := by
  unfold trimChars at h
  rw [List.mem_reverse] at h
  exact mem_of_mem_dropWS _ (List.mem_reverse.mp (mem_of_mem_dropWS _ h))

theorem trimChars_ne_nil_of_mem {c : Char} (hc : isWS c = false) (cs : List Char)
    (h : c ∈ cs) : trimChars cs ≠ [] := by
  intro e
  have hmem := mem_trimChars_of hc cs h
  rw [e] at hmem
  exact List.not_mem_nil c hmem

theorem firstTitle_has_open {l t : List Char} (h : firstTitle l = some t) :
    '《' ∈ l := by
  induction l with
  | nil => simp [firstTitle] at h
  | cons c rest ih =>
    by_cases hc : c = '《'
    · rw [hc]; exact List.mem_cons_self _ _
    · unfold firstTitle at h
      rw [if_neg hc] at h
      exact List.mem_cons_of_mem _ (ih h)

theorem splitLinesCh_no_nl {xs : List Char} (h : '\n' ∉ xs) :
    splitLinesCh xs = [xs] := by
  induction xs with
  | nil => rfl
  | cons c rest ih =>
    have hc : ¬(c = '\n') := fun e => h (by rw [← e]; exact List.mem_cons_self c rest)
    have hrest : '\n' ∉ rest := fun m => h (List.mem_cons_of_mem c m)
    unfold splitLinesCh
    rw [if_neg hc, ih hrest]

theorem splitLinesCh_append {xs ys : List Char} (h : '\n' ∉ xs) :
    splitLinesCh (xs ++ '\n' :: ys) = xs :: splitLinesCh ys := by
  induction xs with
  | nil => simp [splitLinesCh]
  | cons c rest ih =>
    have hc : ¬(c = '\n') := fun e => h (by rw [← e]; exact List.mem_cons_self c rest)
    have hrest : '\n' ∉ rest := fun m => h (List.mem_cons_of_mem c m)
    have heq : splitLinesCh ((c :: rest) ++ '\n' :: ys) =
        if c = '\n' then [] :: splitLinesCh (rest ++ '\n' :: ys)
        else
          match splitLinesCh (rest ++ '\n' :: ys) with
          | [] => [[c]]
          | l :: ls => (c :: l) :: ls := rfl
    rw [heq, if_neg hc, ih hrest]

/-! ### Extractor claims -/

/-- C5 counterexample: an input that contains the same outlet/title line
twice verbatim yields two entries, not one — `extract_media_posts` does
not deduplicate (and extracts bare titles, not (outlet, title) pairs). -/
theorem extract_dup_two_entries :
    extract_media_posts "A报《标题》\nA报《标题》" = ["标题", "标题"] ∧
    (extract_media_posts "A报《标题》\nA报《标题》").length ≠ 1 := by decide

/-- C5 amended: `extract_media_posts` performs no deduplication — for any
newline-free line whose stripped form matches `《(.+?)》` with group `c`,
the two-line input repeating that line verbatim returns the title twice,
in line order. -/
theorem extract_no_dedup (ln : String) (c : List Char)
    (hnl : '\n' ∉ ln.data)
    (ht : firstTitle (trimChars ln.data) = some c) :
    extract_media_posts (ln ++ "\n" ++ ln) = [String.mk c, String.mk c] := by
  have hopen : '《' ∈ trimChars ln.data := firstTitle_has_open ht
  have hopen' : '《' ∈ ln.data := mem_of_mem_trimChars _ hopen
  have hdata : (ln ++ "\n" ++ ln).data = ln.data ++ '\n' :: ln.data := by
    have h0 : ("\n" : String).data = ['\n'] := rfl
    rw [str_data_append, str_data_append, h0, List.append_assoc,
      List.singleton_append]
  have htl : trimChars ln.data ≠ [] := by
    intro e
    rw [e] at hopen
    exact List.not_mem_nil _ hopen
  have hie : (trimChars ln.data).isEmpty = false := by
    cases htc : trimChars ln.data with
    | nil => exact absurd htc htl
    | cons a l => rfl
  have htrim : ¬(trimChars (ln ++ "\n" ++ ln).data = []) := by
    rw [hdata]
    exact trimChars_ne_nil_of_mem (by decide) _ (List.mem_append.mpr (Or.inl hopen'))
  unfold extract_media_posts
  rw [if_neg htrim, hdata, splitLinesCh_append hnl, splitLinesCh_no_nl hnl]
  simp [List.filter_cons, hie, List.filterMap_cons, ht]

/-- Witness for `extract_no_dedup` at the line "A报《标题》". -/
theorem extract_no_dedup_w :
    ('\n' ∉ ("A报《标题》" : String).data) ∧
    firstTitle (trimChars ("A报《标题》" : String).data) = some ['标', '题'] ∧
    extract_media_posts ("A报《标题》" ++ "\n" ++ "A报《标题》") =
      [String.mk ['标', '题'], String.mk ['标', '题']] :=
  ⟨by decide, by decide,
    extract_no_dedup "A报《标题》" ['标', '题'] (by decide) (by decide)⟩

/-- C6 counterexample: with four titles the rendered sentence is identical
to the one for the first three titles, and carries no trailing
"and others" marker — it ends with the enumeration of the first three. -/
theorem render_sentence_no_marker :
    render_media_posts_sentence ["a", "b", "c", "d"] =
      render_media_posts_sentence ["a", "b", "c"] ∧
    render_media_posts_sentence ["a", "b", "c", "d"] =
      "财经媒体端出现多篇关注，代表性标题包括：《a》、《b》、《c》。" := by decide

/-- C6 amended: `render_media_posts_sentence` returns the empty string on
the empty list, depends only on the first three titles (no marker
distinguishes longer lists), and returns non-empty text on every
non-empty list. -/
theorem render_sentence_amended :
    render_media_posts_sentence [] = "" ∧
    (∀ items : List String,
      render_media_posts_sentence items =
        render_media_posts_sentence (items.take 3)) ∧
    (∀ items : List String, items ≠ [] → render_media_posts_sentence items ≠ "") := by
  refine ⟨rfl, ?_, ?_⟩
  · intro items
    match items with
    | [] => rfl
    | [x] => rfl
    | x :: y :: rest =>
      show render_media_posts_sentence (x :: y :: rest) =
        render_media_posts_sentence (x :: y :: rest.take 1)
      simp only [render_media_posts_sentence]
      have h1 : ¬((x :: y :: rest).length = 1) := by simp
      have h2 : ¬((x :: y :: rest.take 1).length = 1) := by simp
      rw [if_neg h1, if_neg h2]
      have h3 : (x :: y :: rest.take 1).take 3 = (x :: y :: rest).take 3 := by
        show x :: y :: (rest.take 1).take 1 = x :: y :: rest.take 1
        simp [List.take_take]
      rw [h3]
  · intro items h
    cases items with
    | nil => exact absurd rfl h
    | cons x rest =>
      simp only [render_media_posts_sentence]
      by_cases hl : (x :: rest).length = 1
      · rw [if_pos hl]
        apply str_append_ne_right
        decide
      · rw [if_neg hl]
        apply str_append_ne_right
        decide

/-- Witness for `render_sentence_amended` at a singleton list. -/
theorem render_sentence_amended_w :
    (["a"] : List String) ≠ [] ∧ render_media_posts_sentence ["a"] ≠ "" :=
  ⟨by decide, render_sentence_amended.2.2 ["a"] (by decide)⟩

/-! ### Renderer claims -/

/-- C7 counterexample: with the sensitive tier and the `ai_like` signal
true, `render_B_sections` DOES append the disclaimer to the platform
section — the source appends it for every tier, never consulting the
mode. -/
theorem render_B_ai_hint_on_sensitive :
    (render_B_sections "" "" "sensitive" "" "" (some ⟨true, false, false⟩)).platform =
      B_platform "sensitive" ++ ai_hint ∧
    B_platform "sensitive" ++ ai_hint ≠ B_platform "sensitive" := by
  constructor
  · rfl
  · intro h
    have h2 := congrArg String.length h
    rw [str_length_append] at h2
    have h3 : ai_hint.length = 0 := by omega
    exact absurd h3 (by decide)

/-- C7 amended: the disclaimer is appended to the platform section if and
only if a signal set is supplied with `ai_like` true — independently of
the tier, including sensitive and escalate. -/
theorem render_B_ai_hint_iff (c w m mt pt : String) (s : Signals) :
    (render_B_sections c w m mt pt (some s)).platform =
      (if s.ai_like then B_platform m ++ ai_hint else B_platform m) ∧
    (render_B_sections c w m mt pt none).platform = B_platform m := by
  constructor
  · cases hA : s.ai_like <;> simp [render_B_sections, hA]
  · rfl

/-- All four tier-selected texts of the renderers agree with their
escalate versions whenever the mode is none of the three named tiers
(the source's `if/elif/else` chains fall through to the final branch). -/
theorem B_texts_default (m : String) (h1 : m ≠ "stable") (h2 : m ≠ "noise")
    (h3 : m ≠ "sensitive") :
    A_tail m = A_tail "escalate" ∧
    B_overall_tail m = B_overall_tail "escalate" ∧
    B_base_media m = B_base_media "escalate" ∧
    B_platform m = B_platform "escalate" ∧
    B_advice m = B_advice "escalate" := by
  have e1 : ¬(("escalate" : String) = "stable") := by decide
  have e2 : ¬(("escalate" : String) = "noise") := by decide
  have e3 : ¬(("escalate" : String) = "sensitive") := by decide
  refine ⟨?_, ?_, ?_, ?_, ?_⟩ <;>
    simp [A_tail, B_overall_tail, B_base_media, B_platform, B_advice,
      h1, h2, h3, e1, e2, e3]

/-- C9: for every mode string other than "stable", "noise" and
"sensitive" (such as unknown or misspelled values), `render_A` and
`render_B_sections` fall through to the escalate-tier templates and
return non-empty text for the brief and for all four sections. -/
theorem renderers_default_escalate (c w mt pt : String) (sig : Option Signals)
    (m : String) (h1 : m ≠ "stable") (h2 : m ≠ "noise") (h3 : m ≠ "sensitive") :
    render_A c w m = render_A c w "escalate" ∧
    render_A c w m ≠ "" ∧
    render_B_sections c w m mt pt sig = render_B_sections c w "escalate" mt pt sig ∧
    (render_B_sections c w m mt pt sig).overall ≠ "" ∧
    (render_B_sections c w m mt pt sig).media ≠ "" ∧
    (render_B_sections c w m mt pt sig).platform ≠ "" ∧
    (render_B_sections c w m mt pt sig).advice ≠ "" := by
  obtain ⟨hA, hO, hM, hP, hAd⟩ := B_texts_default m h1 h2 h3
  have hhead : lead_head c w ≠ "" := by
    simp only [lead_head]
    by_cases hw : safe_strip w = ""
    · rw [if_pos hw]; exact str_append_ne_right _ _ (by decide)
    · rw [if_neg hw]; exact str_append_ne_right _ _ (by decide)
  have hbm : B_base_media m ≠ "" := by rw [hM]; decide
  have hbp : B_platform m ≠ "" := by rw [hP]; decide
  refine ⟨?_, ?_, ?_, ?_, ?_, ?_, ?_⟩
  · simp [render_A, hA]
  · unfold render_A
    exact str_append_ne_left _ _ hhead
  · simp [render_B_sections, hO, hM, hP, hAd]
  · have h4 : (render_B_sections c w m mt pt sig).overall =
        lead_head c w ++ B_overall_tail m := by
      simp [render_B_sections]
    rw [h4]
    exact str_append_ne_left _ _ hhead
  · have h4 : (render_B_sections c w m mt pt sig).media =
        (if render_media_posts_sentence (extract_media_posts mt) = ""
         then B_base_media m
         else render_media_posts_sentence (extract_media_posts mt) ++ B_base_media m) := by
      simp [render_B_sections]
    rw [h4]
    by_cases hh : render_media_posts_sentence (extract_media_posts mt) = ""
    · rw [if_pos hh]; exact hbm
    · rw [if_neg hh]; exact str_append_ne_right _ _ hbm
  · cases sig with
    | none =>
      have h4 : (render_B_sections c w m mt pt none).platform = B_platform m := by
        simp [render_B_sections]
      rw [h4]; exact hbp
    | some s =>
      have h4 : (render_B_sections c w m mt pt (some s)).platform =
          (if s.ai_like then B_platform m ++ ai_hint else B_platform m) := by
        simp [render_B_sections]
      rw [h4]
      cases hA2 : s.ai_like
      · simpa using hbp
      · simpa using str_append_ne_right (B_platform m) ai_hint (by decide)
  · have h4 : (render_B_sections c w m mt pt sig).advice = B_advice m := by
      simp [render_B_sections]
    rw [h4, hAd]
    decide

/-- Witness for `renderers_default_escalate` at the mode string "auto"
(which the UI resolves before rendering, but which the renderers
themselves treat as escalate). -/
theorem renderers_default_escalate_w :
    ("auto" : String) ≠ "stable" ∧ ("auto" : String) ≠ "noise" ∧
    ("auto" : String) ≠ "sensitive" ∧
    render_A "" "" "auto" = render_A "" "" "escalate" ∧
    render_A "" "" "auto" ≠ "" :=
  ⟨by decide, by decide, by decide,
    (renderers_default_escalate "" "" "" "" none "auto"
      (by decide) (by decide) (by decide)).1,
    (renderers_default_escalate "" "" "" "" none "auto"
      (by decide) (by decide) (by decide)).2.1⟩

/-! ### Rewrite-delegate claims -/

/-- C8: with no client, with a delegate that always raises, or with a
delegate that always returns a blank response, both rewrite wrappers
return the pre-rewrite templated text unchanged. -/
theorem rewrite_fallback (f g : Delegate)
    (hf : ∀ s, ∃ e, f s = Except.error e)
    (hg : ∀ s, ∃ r, g s = Except.ok r ∧ pyStrip r = "") :
    ∀ text sp mn sec,
      rewrite_A_with_openai none text sp mn = text ∧
      rewrite_B_with_openai none text sec sp mn = text ∧
      rewrite_A_with_openai (some f) text sp mn = text ∧
      rewrite_B_with_openai (some f) text sec sp mn = text ∧
      rewrite_A_with_openai (some g) text sp mn = text ∧
      rewrite_B_with_openai (some g) text sec sp mn = text := by
  intro text sp mn sec
  refine ⟨?_, ?_, ?_, ?_, ?_, ?_⟩
  · simp [rewrite_A_with_openai]
  · simp [rewrite_B_with_openai]
  · by_cases hb : pyStrip text = ""
    · simp [rewrite_A_with_openai, hb]
    · obtain ⟨e, he⟩ := hf ("风格档位：" ++ sp ++ "\n原文：" ++ text)
      simp [rewrite_A_with_openai, hb, he]
  · by_cases hb : pyStrip text = ""
    · simp [rewrite_B_with_openai, hb]
    · obtain ⟨e, he⟩ :=
        hf ("段落类型：" ++ sec ++ "\n风格档位：" ++ sp ++ "\n原段落：" ++ text)
      simp [rewrite_B_with_openai, hb, he]
  · by_cases hb : pyStrip text = ""
    · simp [rewrite_A_with_openai, hb]
    · obtain ⟨r, hr, hrs⟩ := hg ("风格档位：" ++ sp ++ "\n原文：" ++ text)
      simp [rewrite_A_with_openai, hb, hr, hrs]
  · by_cases hb : pyStrip text = ""
    · simp [rewrite_B_with_openai, hb]
    · obtain ⟨r, hr, hrs⟩ :=
        hg ("段落类型：" ++ sec ++ "\n风格档位：" ++ sp ++ "\n原段落：" ++ text)
      simp [rewrite_B_with_openai, hb, hr, hrs]

/-- Witness for `rewrite_fallback` with a concrete always-failing delegate
and a concrete always-blank delegate. -/
theorem rewrite_fallback_w :
    rewrite_A_with_openai none "草稿文本" "稳健监管版" "gpt-4.1-mini" = "草稿文本" ∧
    rewrite_A_with_openai (some (fun _ => Except.error "超时"))
      "草稿文本" "稳健监管版" "gpt-4.1-mini" = "草稿文本" ∧
    rewrite_B_with_openai (some (fun _ => Except.ok ""))
      "草稿文本" "整体舆情情况" "稳健监管版" "gpt-4.1-mini" = "草稿文本" := by
  have h := rewrite_fallback (fun _ => Except.error "超时") (fun _ => Except.ok "")
    (fun s => ⟨"超时", rfl⟩) (fun s => ⟨"", rfl, rfl⟩)
    "草稿文本" "稳健监管版" "gpt-4.1-mini" "整体舆情情况"
  exact ⟨h.1, h.2.2.1, h.2.2.2.2.2⟩
